import Mathlib

/-!
Verification of the push-notification dispatch subsystem of the CarbScan
backend (`server/notifications.ts`), shallowly embedded in Lean.

The dispatcher (`sendPushNotification`, `sendNotificationMessage`,
`processPendingNotifications`) is translated from the source.  The storage
layer (`storage.ts`) is not part of the available sources; its operations
are modelled from the specification (section 4.1 / 4.2) and marked as such.
The external push gateway (expo-server-sdk) is opaque: token validity is an
abstract predicate, chunking is splitting into bounded-size batches, and a
chunk submission either returns a ticket list or throws; it is modelled by
a call-indexed response function.
-/

namespace CarbScan

/-- Message status lifecycle, `shared/schema.ts` `notification_messages.status`
(`pending`/`sending`/`sent`/`failed`). -/
inductive MsgStatus where
  | pending
  | sending
  | sent
  | failed
deriving DecidableEq, Repr

/-- String form of a status, as stored in the `status` varchar column and
interpolated into the "Message already ..." error. -/
def MsgStatus.toStr : MsgStatus → String
  | .pending => "pending"
  | .sending => "sending"
  | .sent => "sent"
  | .failed => "failed"

/-- A row of `device_registrations` (`shared/schema.ts`).  Timestamps are
modelled as naturals. -/
structure DeviceRegistration where
  id : String
  userId : String
  expoPushToken : String
  platform : String
  deviceModel : Option String := none
  osVersion : Option String := none
  appVersion : Option String := none
  enabled : Bool := true
  lastNotifiedAt : Option Nat := none
  createdAt : Nat := 0
  updatedAt : Nat := 0
deriving DecidableEq, Repr

/-- A row of `notification_messages` (`shared/schema.ts`).  `data` is the
opaque serialized payload blob; counters are nullable integer columns. -/
structure NotificationMessage where
  id : String
  title : String
  body : String
  data : Option String := none
  category : Option String := none
  audienceType : String := "all"
  status : MsgStatus := .pending
  scheduledFor : Option Nat := none
  sentAt : Option Nat := none
  createdBy : Option String := none
  successCount : Option Nat := some 0
  failureCount : Option Nat := some 0
  createdAt : Nat := 0
  updatedAt : Nat := 0
deriving DecidableEq, Repr

/-- The relational store: device registry rows and notification message rows. -/
structure Storage where
  devices : List DeviceRegistration
  messages : List NotificationMessage
deriving DecidableEq, Repr

/-- Modelled from the spec: `storage.getDevicesForUser` (storage.ts is not in
the sources) — spec 4.1 `listForUser(userId)` returns only `enabled=true`
rows of that user. -/
def Storage.getDevicesForUser (σ : Storage) (userId : String) :
    List DeviceRegistration :=
  σ.devices.filter (fun d => d.userId == userId && d.enabled)

/-- Modelled from the spec: `storage.getEnabledDevices` — spec 4.1
`listAllEnabled()` returns exactly the rows with `enabled=true`. -/
def Storage.getEnabledDevices (σ : Storage) : List DeviceRegistration :=
  σ.devices.filter (fun d => d.enabled)

/-- Modelled from the spec: `storage.getNotificationMessage` — spec 4.2
`get(id)`, lookup by unique identifier. -/
def Storage.getNotificationMessage (σ : Storage) (id : String) :
    Option NotificationMessage :=
  σ.messages.find? (fun m => m.id == id)

/-- Modelled from the spec: `storage.getPendingNotifications` — spec 4.2
`listDue(now)`: all messages with status `pending` and (`scheduledFor` null
or `scheduledFor ≤ now`). -/
def Storage.getPendingNotifications (σ : Storage) (now : Nat) :
    List NotificationMessage :=
  σ.messages.filter (fun m =>
    m.status == MsgStatus.pending &&
      (match m.scheduledFor with
       | none => true
       | some t => decide (t ≤ now)))

/-- One storage mutation issued by the dispatcher, in program order:
`storage.updateDeviceLastNotified`, `storage.unregisterDevice`, and
`storage.updateNotificationStatus` calls. -/
inductive Effect where
  | markNotified (deviceId : String)
  | unregister (token : String)
  | updateStatus (messageId : String) (st : MsgStatus)
      (succ : Option Nat) (fail : Option Nat)
deriving DecidableEq, Repr

/-- Modelled from the spec: the row-level update of
`storage.updateNotificationStatus(mid, st, s, f)` applied to one message
row — sets the status on the matching row, stamps `sentAt` when the new
status is `sent`, and overwrites exactly the counters that are provided
(spec 4.2). -/
def updMsg (now : Nat) (mid : String) (st : MsgStatus)
    (s f : Option Nat) (m : NotificationMessage) : NotificationMessage :=
  if m.id == mid then
    { m with
      status := st,
      sentAt := if st == MsgStatus.sent then some now else m.sentAt,
      successCount := match s with | some v => some v | none => m.successCount,
      failureCount := match f with | some v => some v | none => m.failureCount }
  else m

/-- Modelled from the spec: applying one storage mutation at time `now`.
`markNotified` stamps the last-notified time and refreshes `updatedAt`
(spec 4.1); `unregister` sets `enabled=false` on the matching token,
keeping the row (spec 4.1); `updateStatus` is `updMsg` over the message
table. -/
def applyEffect (now : Nat) (σ : Storage) : Effect → Storage
  | .markNotified did =>
      { σ with devices := σ.devices.map (fun d =>
          if d.id == did then
            { d with lastNotifiedAt := some now, updatedAt := now }
          else d) }
  | .unregister tok =>
      { σ with devices := σ.devices.map (fun d =>
          if d.expoPushToken == tok then { d with enabled := false } else d) }
  | .updateStatus mid st s f =>
      { σ with messages := σ.messages.map (updMsg now mid st s f) }

/-- `ticket.details` of an expo push ticket: the optional `error` reason. -/
structure TicketDetails where
  error : Option String
deriving DecidableEq, Repr

/-- Status of one expo push ticket: `"ok"` or `"error"`. -/
inductive TicketStatus where
  | ok
  | error
deriving DecidableEq, Repr

/-- One `ExpoPushTicket` returned by the gateway. -/
structure ExpoPushTicket where
  status : TicketStatus
  details : Option TicketDetails := none
deriving DecidableEq, Repr

/-- One `ExpoPushMessage` as built by `sendPushNotification`; the payload
type `α` is opaque (JS `Record<string, any>`), defaulted by `data || \x7b\x7d`
in the source, carried here as an `Option`. -/
structure ExpoPushMessage (α : Type) where
  «to» : String
  sound : String
  title : String
  body : String
  data : Option α
deriving DecidableEq, Repr

/-- Recursion worker for `chunkPushNotifications`: peels off one batch
of `c + 1` elements per step; the fuel argument (always at least the
list length) makes the recursion structural, so the function computes by
reduction. -/
def chunkGo (c : Nat) : Nat → List β → List (List β)
  | _, [] => []
  | 0, l => [l]
  | fuel + 1, x :: xs => (x :: xs.take c) :: chunkGo c fuel (xs.drop c)

/-- Modelled from the spec: `expo.chunkPushNotifications` — the gateway
splits the message list into batches respecting a fixed maximum batch
size; the capacity is `c + 1`, so batches are never empty. -/
def chunkPushNotifications (c : Nat) (l : List β) : List (List β) :=
  chunkGo c l.length l

/-- The chunk-submission loop of `sendPushNotification`
(`notifications.ts` lines 63–72): each chunk is submitted in order
(the gateway's response to the `i`-th call is `gw i`); a returned ticket
list is appended to `tickets`, a throw records the error string and adds
the chunk's length to the failure count, and the loop continues with the
next chunk.  Result: `(tickets, errors, failureCount)`. -/
def submitChunks (gw : Nat → Except String (List ExpoPushTicket)) :
    List (List (ExpoPushMessage α)) → Nat →
    List ExpoPushTicket × List String × Nat
  | [], _ => ([], [], 0)
  | ch :: rest, i =>
    let r := submitChunks gw rest (i + 1)
    match gw i with
    | .ok tchunk => (tchunk ++ r.1, r.2.1, r.2.2)
    | .error e => (r.1, e :: r.2.1, r.2.2 + ch.length)

/-- The ticket loop of `sendPushNotification` (`notifications.ts` lines
74–91): ticket `i` is paired with `validDevices[i]`.  An ok ticket
increments success and marks the device notified; a non-ok ticket
increments failure, and only when `ticket.details?.error` is present the
`"<token>: <error>"` string is recorded and, on `DeviceNotRegistered`,
the token is unregistered.  `none` models the TypeError thrown when
`validDevices[i]` is `undefined` and a device field is accessed.
Result: `(successCount, failureCount, errors, effects)`. -/
def processTickets (vd : List DeviceRegistration) :
    List ExpoPushTicket → Nat →
    Option (Nat × Nat × List String × List Effect)
  | [], _ => some (0, 0, [], [])
  | t :: ts, i =>
    match t.status with
    | .ok =>
      match vd[i]? with
      | none => none
      | some d =>
        match processTickets vd ts (i + 1) with
        | none => none
        | some (s, f, es, effs) =>
          some (s + 1, f, es, Effect.markNotified d.id :: effs)
    | .error =>
      match t.details.bind TicketDetails.error with
      | none =>
        match processTickets vd ts (i + 1) with
        | none => none
        | some (s, f, es, effs) => some (s, f + 1, es, effs)
      | some err =>
        match vd[i]? with
        | none => none
        | some d =>
          match processTickets vd ts (i + 1) with
          | none => none
          | some (s, f, es, effs) =>
            some (s, f + 1, (d.expoPushToken ++ ": " ++ err) :: es,
              (if err == "DeviceNotRegistered"
               then [Effect.unregister d.expoPushToken] else []) ++ effs)

/-- Audience resolution of `sendPushNotification` (`notifications.ts`
lines 19–28): with a non-empty `targetUserIds`, the per-user device lists
are fetched and flattened (`allDevices.flat()`); otherwise all enabled
devices are used. -/
def resolveDevices (σ : Storage) (targetUserIds : Option (List String)) :
    List DeviceRegistration :=
  match targetUserIds with
  | some ids =>
    if ids.length > 0 then (ids.map (fun uid => σ.getDevicesForUser uid)).flatten
    else σ.getEnabledDevices
  | none => σ.getEnabledDevices

/-- The `SendResult` record of `notifications.ts`. -/
structure SendResult where
  successCount : Nat
  failureCount : Nat
  errors : List String
deriving DecidableEq, Repr

/-- `sendPushNotification` (`notifications.ts` lines 13–93), parameterized
by the gateway's token validator `isTok`, chunk capacity `c + 1`, and the
call-indexed gateway responses `gw`.  Returns the `SendResult` together
with the ordered storage mutations it issued, or `none` when the ticket
loop would throw a TypeError (more tickets than valid devices); mutations
preceding such a throw are not tracked. -/
def sendPushNotification (isTok : String → Bool) (c : Nat)
    (gw : Nat → Except String (List ExpoPushTicket)) (σ : Storage)
    (title body : String) (data : Option α)
    (targetUserIds : Option (List String)) :
    Option (SendResult × List Effect) :=
  let devices := resolveDevices σ targetUserIds
  if devices.length = 0 then
    some ({ successCount := 0, failureCount := 0,
            errors := ["No registered devices found"] }, [])
  else
    let vd := devices.filter (fun d => isTok d.expoPushToken)
    let messages : List (ExpoPushMessage α) := vd.map (fun d =>
      { «to» := d.expoPushToken, sound := "default",
        title := title, body := body, data := data })
    if messages.length = 0 then
      some ({ successCount := 0, failureCount := devices.length,
              errors := ["No valid push tokens found"] }, [])
    else
      let chunks := chunkPushNotifications c messages
      let r1 := submitChunks gw chunks 0
      match processTickets vd r1.1 0 with
      | none => none
      | some (s, f2, es2, effs) =>
        some ({ successCount := s, failureCount := r1.2.2 + f2,
                errors := r1.2.1 ++ es2 }, effs)

/-- The payload-parsing step of `sendNotificationMessage`
(`const data = message.data ? JSON.parse(message.data) : undefined`):
the JS truthiness test means a null or empty-string payload is not
parsed; a parse exception is the `.error` branch. -/
def parseStoredData (parse : String → Except String α) :
    Option String → Except String (Option α)
  | some s => if s ≠ "" then (parse s).map some else .ok none
  | none => .ok none

/-- Outcome of a call that may throw: a returned `SendResult` or a
propagated exception. -/
inductive SendOutcome where
  | ok (r : SendResult)
  | threw (e : String)
deriving DecidableEq, Repr

/-- `sendNotificationMessage` (`notifications.ts` lines 96–120),
parameterized additionally by `parse` (JSON.parse on the stored payload:
an exception is the `.error` branch) and the wall clock `now` used for
timestamps.  Returns the outcome, the storage after all mutations, and
the ordered mutation list.  The JS truthiness test `message.data ?` means
a null or empty-string payload is not parsed. -/
def sendNotificationMessage (isTok : String → Bool) (c : Nat)
    (gw : Nat → Except String (List ExpoPushTicket))
    (parse : String → Except String α) (now : Nat)
    (σ : Storage) (messageId : String) :
    SendOutcome × Storage × List Effect :=
  match σ.getNotificationMessage messageId with
  | none =>
    (.ok { successCount := 0, failureCount := 0,
           errors := ["Notification message not found"] }, σ, [])
  | some m =>
    if m.status ≠ MsgStatus.pending then
      (.ok { successCount := 0, failureCount := 0,
             errors := ["Message already " ++ m.status.toStr] }, σ, [])
    else
      let e1 := Effect.updateStatus messageId MsgStatus.sending none none
      let σ1 := applyEffect now σ e1
      match parseStoredData parse m.data with
      | .error e => (.threw e, σ1, [e1])
      | .ok d =>
        match sendPushNotification isTok c gw σ1 m.title m.body d none with
        | none => (.threw "TypeError", σ1, [e1])
        | some (r, effs) =>
          let σ2 := effs.foldl (applyEffect now) σ1
          let e2 := Effect.updateStatus messageId MsgStatus.sent
            (some r.successCount) (some r.failureCount)
          (.ok r, applyEffect now σ2 e2, e1 :: effs ++ [e2])

/-- The loop body of `processPendingNotifications` (`notifications.ts`
lines 126–132): each pending message is attempted in order; when the
attempt throws, the message is updated to `failed` and the loop
continues.  Also returns the per-message outcomes in order. -/
def processLoop (isTok : String → Bool) (c : Nat)
    (gw : Nat → Except String (List ExpoPushTicket))
    (parse : String → Except String α) (now : Nat) :
    Storage → List NotificationMessage → Storage × List SendOutcome
  | σ, [] => (σ, [])
  | σ, m :: rest =>
    let r := sendNotificationMessage isTok c gw parse now σ m.id
    match r.1 with
    | .ok _ =>
      let rec1 := processLoop isTok c gw parse now r.2.1 rest
      (rec1.1, r.1 :: rec1.2)
    | .threw _ =>
      let σf := applyEffect now r.2.1
        (Effect.updateStatus m.id MsgStatus.failed none none)
      let rec1 := processLoop isTok c gw parse now σf rest
      (rec1.1, r.1 :: rec1.2)

/-- `processPendingNotifications` (`notifications.ts` lines 122–133):
fetch the due pending messages once, then run the loop. -/
def processPendingNotifications (isTok : String → Bool) (c : Nat)
    (gw : Nat → Except String (List ExpoPushTicket))
    (parse : String → Except String α) (now : Nat) (σ : Storage) :
    Storage × List SendOutcome :=
  processLoop isTok c gw parse now σ (σ.getPendingNotifications now)

/-- An effect touching only the device registry (never the message
table): `markNotified` and `unregister`. -/
def Effect.isDeviceEffect : Effect → Bool
  | .markNotified _ => true
  | .unregister _ => true
  | .updateStatus _ _ _ _ => false

/-- Bool check that the gateway's response to call `k`, when it does not
throw, has one ticket per message of chunk `k` (the gateway contract of
spec section 6). -/
def gwOkLen (gw : Nat → Except String (List ExpoPushTicket))
    (chunks : List (List (ExpoPushMessage α))) (k : Nat) : Bool :=
  match gw k with
  | .ok ts => ts.length == (chunks.getD k []).length
  | .error _ => true

/-- The gateway respects the ticket contract on every chunk of this run:
each non-throwing chunk submission yields exactly one ticket per
submitted message. -/
def gwRespects (gw : Nat → Except String (List ExpoPushTicket))
    (chunks : List (List (ExpoPushMessage α))) : Prop :=
  ∀ k, k < chunks.length → gwOkLen gw chunks k = true

/-! Concrete fixtures used by counterexamples and witnesses. -/

/-- Fixture: an enabled iOS device of user `u` with token `t1`. -/
def devA : DeviceRegistration :=
  { id := "d1", userId := "u", expoPushToken := "t1", platform := "ios" }

/-- Fixture: an enabled iOS device of user `u` with token `t2`. -/
def devB : DeviceRegistration :=
  { id := "d2", userId := "u", expoPushToken := "t2", platform := "ios" }

/-- Fixture: an enabled device whose token fails the gateway validator. -/
def devBad : DeviceRegistration :=
  { id := "d3", userId := "u", expoPushToken := "bad", platform := "ios" }

/-- Fixture: a gateway that throws on the first chunk and accepts every
later chunk with a single ok ticket. -/
def gwThrowFirst : Nat → Except String (List ExpoPushTicket)
  | 0 => .error "boom"
  | _ => .ok [{ status := .ok }]

/-- Fixture: a gateway whose every chunk yields one non-ok ticket without
`details`. -/
def gwErrNoDetails : Nat → Except String (List ExpoPushTicket)
  | _ => .ok [{ status := .error }]

/-- Fixture: a gateway whose every chunk yields one
`DeviceNotRegistered` ticket. -/
def gwDNR : Nat → Except String (List ExpoPushTicket)
  | _ => .ok [{ status := .error,
                details := some { error := some "DeviceNotRegistered" } }]

/-- Fixture: a gateway whose every chunk yields one ok ticket. -/
def gwAllOk : Nat → Except String (List ExpoPushTicket)
  | _ => .ok [{ status := .ok }]

/-- Fixture: storage holding just device `devA`. -/
def σA : Storage := { devices := [devA], messages := [] }

/-- Fixture: storage holding devices `devA` and `devB`. -/
def σAB : Storage := { devices := [devA, devB], messages := [] }

/-- Fixture: a pending message with no stored payload. -/
def msgPend : NotificationMessage := { id := "m1", title := "Hi", body := "Test" }

/-- Fixture: a pending message whose stored payload is not valid JSON
for the `parseFail` parser. -/
def msgBad : NotificationMessage :=
  { id := "m2", title := "Hi", body := "Test", data := some "x" }

/-- Fixture: a message already in status `sent`. -/
def msgSent : NotificationMessage :=
  { id := "m3", title := "Hi", body := "Test", status := .sent }

/-- Fixture: a pending message with no stored payload and id `m4`. -/
def msgPend2 : NotificationMessage := { id := "m4", title := "Hi", body := "Test" }

/-- Fixture: a parser on which every payload raises, as JSON.parse does
on malformed input. -/
def parseFail : String → Except String String := fun _ => .error "SyntaxError"

/-- Fixture: storage with no devices, one already-sent message. -/
def σ4 : Storage := { devices := [], messages := [msgSent] }

/-- Fixture: storage with device `devA` and one pending message. -/
def σ5 : Storage := { devices := [devA], messages := [msgPend] }

/-- Fixture: storage with device `devA` and three pending messages, the
middle one with an unparseable payload. -/
def σ7 : Storage := { devices := [devA], messages := [msgPend, msgBad, msgPend2] }

/-- Fixture: storage with device `devA` and one pending message with an
unparseable payload. -/
def σ10 : Storage := { devices := [devA], messages := [msgBad] }

/-- Fixture: `devA` with `enabled=false`. -/
def devAoff : DeviceRegistration := { devA with enabled := false }

/-- Fixture: storage holding only a disabled device. -/
def σ8 : Storage := { devices := [devAoff], messages := [] }

/-- Fixture: a `DeviceNotRegistered` error ticket. -/
def tDNR : ExpoPushTicket :=
  { status := .error, details := some { error := some "DeviceNotRegistered" } }

/-- Fixture: storage with one gateway-valid and one gateway-invalid
device. -/
def σ9 : Storage := { devices := [devA, devBad], messages := [] }

/-! Helper lemmas. -/

/-- With enough fuel, flattening the batches of `chunkGo` restores the
list. -/
theorem chunkGo_flatten (c : Nat) :
    ∀ (fuel : Nat) (l : List β), l.length ≤ fuel →
      (chunkGo c fuel l).flatten = l
  | fuel, [], _ => by
    cases fuel <;> simp [chunkGo]
  | 0, x :: xs, h => by simp at h
  | fuel + 1, x :: xs, h => by
    have hle : (xs.drop c).length ≤ fuel := by
      simp only [List.length_drop]
      simp only [List.length_cons] at h
      omega
    have ih := chunkGo_flatten c fuel (xs.drop c) hle
    simp [chunkGo, ih]

/-- Chunking splits without loss: flattening the chunks restores the
message list. -/
theorem chunkPushNotifications_flatten (c : Nat) (l : List β) :
    (chunkPushNotifications c l).flatten = l :=
  chunkGo_flatten c l.length l (Nat.le_refl _)

/-- Characterization of the chunk-submission loop: the collected tickets
are the concatenated responses of the non-throwing chunks in order, the
recorded errors are the thrown errors in order, and the failure count is
the total length of the thrown chunks. -/
theorem submitChunks_spec (gw : Nat → Except String (List ExpoPushTicket)) :
    ∀ (chunks : List (List (ExpoPushMessage α))) (i),
    submitChunks gw chunks i =
      (((List.range chunks.length).map (fun k =>
          match gw (i + k) with | .ok ts => ts | .error _ => [])).flatten,
       ((List.range chunks.length).map (fun k =>
          match gw (i + k) with | .error e => [e] | .ok _ => [])).flatten,
       ((List.range chunks.length).map (fun k =>
          match gw (i + k) with
          | .error _ => (chunks.getD k []).length
          | .ok _ => 0)).sum)
  | [], i => by simp [submitChunks]
  | ch :: rest, i => by
    have ih := submitChunks_spec gw rest (i + 1)
    have hr : ∀ {γ : Type} (f : Nat → γ) (n : Nat),
        (List.range (n + 1)).map f = f 0 :: (List.range n).map (fun k => f (k + 1)) := by
      intro γ f n
      rw [List.range_succ_eq_map, List.map_cons, List.map_map]
      rfl
    rw [submitChunks, ih, List.length_cons, hr, hr, hr]
    have h1 : (fun k => match gw (i + (k + 1)) with
                | .ok ts => ts | .error _ => ([] : List ExpoPushTicket))
            = (fun k => match gw (i + 1 + k) with
                | .ok ts => ts | .error _ => []) := by
      funext k
      rw [show i + (k + 1) = i + 1 + k from by omega]
    have h2 : (fun k => match gw (i + (k + 1)) with
                | .error e => [e] | .ok _ => ([] : List String))
            = (fun k => match gw (i + 1 + k) with
                | .error e => [e] | .ok _ => []) := by
      funext k
      rw [show i + (k + 1) = i + 1 + k from by omega]
    have h3 : (fun k => match gw (i + (k + 1)) with
                | .error _ => ((ch :: rest).getD (k + 1) []).length
                | .ok _ => 0)
            = (fun k => match gw (i + 1 + k) with
                | .error _ => (rest.getD k []).length
                | .ok _ => 0) := by
      funext k
      rw [show i + (k + 1) = i + 1 + k from by omega, List.getD_cons_succ]
    rw [h1, h2, h3]
    cases hgw : gw i with
    | ok ts => simp [hgw]
    | error e =>
      simp [hgw]
      omega

/-- The ticket loop cannot hit an out-of-range device while the running
index plus the remaining tickets stay within the valid-device list. -/
theorem processTickets_isSome (vd : List DeviceRegistration) :
    ∀ (ts : List ExpoPushTicket) (i), i + ts.length ≤ vd.length →
      (processTickets vd ts i).isSome
  | [], i, _ => by simp [processTickets]
  | t :: ts, i, h => by
    have hi : i < vd.length := by
      simp only [List.length_cons] at h
      omega
    have hvd : vd[i]? = some vd[i] := List.getElem?_eq_getElem hi
    have ih : (processTickets vd ts (i + 1)).isSome :=
      processTickets_isSome vd ts (i + 1) (by
        simp only [List.length_cons] at h
        omega)
    obtain ⟨o, ho⟩ := Option.isSome_iff_exists.mp ih
    obtain ⟨s, f, es, effs⟩ := o
    cases hst : t.status with
    | ok => simp [processTickets, hst, hvd, ho]
    | error =>
      cases hd : t.details.bind TicketDetails.error with
      | none => simp [processTickets, hst, hd, ho]
      | some err => simp [processTickets, hst, hd, hvd, ho]

/-- Every processed ticket is counted in exactly one of the two
counters: success plus failure equals the number of tickets. -/
theorem processTickets_counts (vd : List DeviceRegistration) :
    ∀ (ts : List ExpoPushTicket) (i) (s f : Nat) (es : List String)
      (effs : List Effect),
      processTickets vd ts i = some (s, f, es, effs) → s + f = ts.length
  | [], i, s, f, es, effs => by
    intro h
    simp [processTickets] at h ⊢
    omega
  | t :: ts, i, s, f, es, effs => by
    intro h
    rw [processTickets] at h
    cases hst : t.status with
    | ok =>
      rw [hst] at h
      cases hvd : vd[i]? with
      | none => rw [hvd] at h; exact absurd h (by simp)
      | some d =>
        rw [hvd] at h
        cases hrec : processTickets vd ts (i + 1) with
        | none => rw [hrec] at h; exact absurd h (by simp)
        | some o =>
          obtain ⟨s', f', es', effs'⟩ := o
          rw [hrec] at h
          simp only [Option.some_inj, Prod.mk.injEq] at h
          obtain ⟨h1, h2, -, -⟩ := h
          have := processTickets_counts vd ts (i + 1) s' f' es' effs' hrec
          simp only [List.length_cons]
          omega
    | error =>
      rw [hst] at h
      cases hd : t.details.bind TicketDetails.error with
      | none =>
        rw [hd] at h
        cases hrec : processTickets vd ts (i + 1) with
        | none => rw [hrec] at h; exact absurd h (by simp)
        | some o =>
          obtain ⟨s', f', es', effs'⟩ := o
          rw [hrec] at h
          simp only [Option.some_inj, Prod.mk.injEq] at h
          obtain ⟨h1, h2, -, -⟩ := h
          have := processTickets_counts vd ts (i + 1) s' f' es' effs' hrec
          simp only [List.length_cons]
          omega
      | some err =>
        rw [hd] at h
        cases hvd : vd[i]? with
        | none => rw [hvd] at h; exact absurd h (by simp)
        | some d =>
          rw [hvd] at h
          cases hrec : processTickets vd ts (i + 1) with
          | none => rw [hrec] at h; exact absurd h (by simp)
          | some o =>
            obtain ⟨s', f', es', effs'⟩ := o
            rw [hrec] at h
            simp only [Option.some_inj, Prod.mk.injEq] at h
            obtain ⟨h1, h2, -, -⟩ := h
            have := processTickets_counts vd ts (i + 1) s' f' es' effs' hrec
            simp only [List.length_cons]
            omega

/-- The ticket loop mutates only the device registry: every effect it
emits is a `markNotified` or an `unregister`. -/
theorem processTickets_effects (vd : List DeviceRegistration) :
    ∀ (ts : List ExpoPushTicket) (i) (s f : Nat) (es : List String)
      (effs : List Effect),
      processTickets vd ts i = some (s, f, es, effs) →
      ∀ e ∈ effs, e.isDeviceEffect = true
  | [], i, s, f, es, effs => by
    intro h e he
    simp [processTickets] at h
    obtain ⟨-, -, -, h4⟩ := h
    subst h4
    simp at he
  | t :: ts, i, s, f, es, effs => by
    intro h e he
    rw [processTickets] at h
    cases hst : t.status with
    | ok =>
      rw [hst] at h
      cases hvd : vd[i]? with
      | none => rw [hvd] at h; exact absurd h (by simp)
      | some d =>
        rw [hvd] at h
        cases hrec : processTickets vd ts (i + 1) with
        | none => rw [hrec] at h; exact absurd h (by simp)
        | some o =>
          obtain ⟨s', f', es', effs'⟩ := o
          rw [hrec] at h
          simp only [Option.some_inj, Prod.mk.injEq] at h
          obtain ⟨-, -, -, h4⟩ := h
          subst h4
          rcases List.mem_cons.mp he with rfl | hmem
          · rfl
          · exact processTickets_effects vd ts (i + 1) s' f' es' effs' hrec e hmem
    | error =>
      rw [hst] at h
      cases hd : t.details.bind TicketDetails.error with
      | none =>
        rw [hd] at h
        cases hrec : processTickets vd ts (i + 1) with
        | none => rw [hrec] at h; exact absurd h (by simp)
        | some o =>
          obtain ⟨s', f', es', effs'⟩ := o
          rw [hrec] at h
          simp only [Option.some_inj, Prod.mk.injEq] at h
          obtain ⟨-, -, -, h4⟩ := h
          subst h4
          exact processTickets_effects vd ts (i + 1) s' f' es' effs' hrec e he
      | some err =>
        rw [hd] at h
        cases hvd : vd[i]? with
        | none => rw [hvd] at h; exact absurd h (by simp)
        | some d =>
          rw [hvd] at h
          cases hrec : processTickets vd ts (i + 1) with
          | none => rw [hrec] at h; exact absurd h (by simp)
          | some o =>
            obtain ⟨s', f', es', effs'⟩ := o
            rw [hrec] at h
            simp only [Option.some_inj, Prod.mk.injEq] at h
            obtain ⟨-, -, -, h4⟩ := h
            subst h4
            rcases List.mem_append.mp he with hl | hmem
            · rcases herr : (err == "DeviceNotRegistered") with - | -
              · rw [herr] at hl; simp at hl
              · rw [herr] at hl
                simp at hl
                subst hl
                rfl
            · exact processTickets_effects vd ts (i + 1) s' f' es' effs' hrec e hmem

/-- The failure counter of the ticket loop counts exactly the non-ok
tickets. -/
theorem processTickets_failCount (vd : List DeviceRegistration) :
    ∀ (ts : List ExpoPushTicket) (i) (s f : Nat) (es : List String)
      (effs : List Effect),
      processTickets vd ts i = some (s, f, es, effs) →
      f = (ts.filter (fun t => !(t.status == TicketStatus.ok))).length
  | [], i, s, f, es, effs => by
    intro h
    simp [processTickets] at h
    simp [h.2.1]
  | t :: ts, i, s, f, es, effs => by
    intro h
    rw [processTickets] at h
    cases hst : t.status with
    | ok =>
      rw [hst] at h
      cases hvd : vd[i]? with
      | none => rw [hvd] at h; exact absurd h (by simp)
      | some d =>
        rw [hvd] at h
        cases hrec : processTickets vd ts (i + 1) with
        | none => rw [hrec] at h; exact absurd h (by simp)
        | some o =>
          obtain ⟨s', f', es', effs'⟩ := o
          rw [hrec] at h
          simp only [Option.some_inj, Prod.mk.injEq] at h
          obtain ⟨-, h2, -, -⟩ := h
          subst h2
          simp [List.filter_cons, hst]
          exact processTickets_failCount vd ts (i + 1) s' f' es' effs' hrec
    | error =>
      rw [hst] at h
      cases hd : t.details.bind TicketDetails.error with
      | none =>
        rw [hd] at h
        cases hrec : processTickets vd ts (i + 1) with
        | none => rw [hrec] at h; exact absurd h (by simp)
        | some o =>
          obtain ⟨s', f', es', effs'⟩ := o
          rw [hrec] at h
          simp only [Option.some_inj, Prod.mk.injEq] at h
          obtain ⟨-, h2, -, -⟩ := h
          subst h2
          simp [List.filter_cons, hst]
          exact processTickets_failCount vd ts (i + 1) s' f' es' effs' hrec
      | some err =>
        rw [hd] at h
        cases hvd : vd[i]? with
        | none => rw [hvd] at h; exact absurd h (by simp)
        | some d =>
          rw [hvd] at h
          cases hrec : processTickets vd ts (i + 1) with
          | none => rw [hrec] at h; exact absurd h (by simp)
          | some o =>
            obtain ⟨s', f', es', effs'⟩ := o
            rw [hrec] at h
            simp only [Option.some_inj, Prod.mk.injEq] at h
            obtain ⟨-, h2, -, -⟩ := h
            subst h2
            simp [List.filter_cons, hst]
            exact processTickets_failCount vd ts (i + 1) s' f' es' effs' hrec

/-- For every non-ok ticket that carries an error reason, the ticket
loop records the `"<token>: <reason>"` string for the device paired with
that ticket's index, and unregisters the token on
`DeviceNotRegistered`. -/
theorem processTickets_err_mem (vd : List DeviceRegistration) :
    ∀ (ts : List ExpoPushTicket) (i) (s f : Nat) (es : List String)
      (effs : List Effect),
      processTickets vd ts i = some (s, f, es, effs) →
      ∀ j t err d, ts[j]? = some t → t.status ≠ TicketStatus.ok →
        t.details.bind TicketDetails.error = some err →
        vd[i + j]? = some d →
        (d.expoPushToken ++ ": " ++ err) ∈ es ∧
        (err = "DeviceNotRegistered" → Effect.unregister d.expoPushToken ∈ effs)
  | [], i, s, f, es, effs => by
    intro h j t err d hj
    simp at hj
  | t0 :: ts, i, s, f, es, effs => by
    intro h j t err d hj hok herr hd
    rw [processTickets] at h
    cases j with
    | zero =>
      rw [List.getElem?_cons_zero, Option.some_inj] at hj
      subst hj
      cases hst : t0.status with
      | ok => exact absurd hst hok
      | error =>
        rw [hst, herr] at h
        rw [Nat.add_zero] at hd
        rw [hd] at h
        cases hrec : processTickets vd ts (i + 1) with
        | none => rw [hrec] at h; exact absurd h (by simp)
        | some o =>
          obtain ⟨s', f', es', effs'⟩ := o
          rw [hrec] at h
          simp only [Option.some_inj, Prod.mk.injEq] at h
          obtain ⟨-, -, h3, h4⟩ := h
          subst h3
          subst h4
          refine ⟨List.mem_cons_self _ _, fun hdnr => ?_⟩
          subst hdnr
          simp
    | succ j' =>
      rw [List.getElem?_cons_succ] at hj
      have harith : i + (j' + 1) = (i + 1) + j' := by omega
      rw [harith] at hd
      cases hst : t0.status with
      | ok =>
        rw [hst] at h
        cases hvd : vd[i]? with
        | none => rw [hvd] at h; exact absurd h (by simp)
        | some d0 =>
          rw [hvd] at h
          cases hrec : processTickets vd ts (i + 1) with
          | none => rw [hrec] at h; exact absurd h (by simp)
          | some o =>
            obtain ⟨s', f', es', effs'⟩ := o
            rw [hrec] at h
            simp only [Option.some_inj, Prod.mk.injEq] at h
            obtain ⟨-, -, h3, h4⟩ := h
            subst h3
            subst h4
            obtain ⟨hm, hu⟩ := processTickets_err_mem vd ts (i + 1) s' f' es' effs'
              hrec j' t err d hj hok herr hd
            exact ⟨hm, fun hdnr => List.mem_cons_of_mem _ (hu hdnr)⟩
      | error =>
        rw [hst] at h
        cases hd0 : t0.details.bind TicketDetails.error with
        | none =>
          rw [hd0] at h
          cases hrec : processTickets vd ts (i + 1) with
          | none => rw [hrec] at h; exact absurd h (by simp)
          | some o =>
            obtain ⟨s', f', es', effs'⟩ := o
            rw [hrec] at h
            simp only [Option.some_inj, Prod.mk.injEq] at h
            obtain ⟨-, -, h3, h4⟩ := h
            subst h3
            subst h4
            exact processTickets_err_mem vd ts (i + 1) s' f' es' effs'
              hrec j' t err d hj hok herr hd
        | some err0 =>
          rw [hd0] at h
          cases hvd : vd[i]? with
          | none => rw [hvd] at h; exact absurd h (by simp)
          | some d0 =>
            rw [hvd] at h
            cases hrec : processTickets vd ts (i + 1) with
            | none => rw [hrec] at h; exact absurd h (by simp)
            | some o =>
              obtain ⟨s', f', es', effs'⟩ := o
              rw [hrec] at h
              simp only [Option.some_inj, Prod.mk.injEq] at h
              obtain ⟨-, -, h3, h4⟩ := h
              subst h3
              subst h4
              obtain ⟨hm, hu⟩ := processTickets_err_mem vd ts (i + 1) s' f' es' effs'
                hrec j' t err d hj hok herr hd
              exact ⟨List.mem_cons_of_mem _ hm,
                fun hdnr => List.mem_append_right _ (hu hdnr)⟩

/-- When every non-throwing chunk yields one ticket per message, the
collected tickets and the chunk-level failure count together account for
every submitted message. -/
theorem submitChunks_len (gw : Nat → Except String (List ExpoPushTicket)) :
    ∀ (chunks : List (List (ExpoPushMessage α))) (i),
      (∀ k ch, chunks[k]? = some ch →
        ∀ ts, gw (i + k) = .ok ts → ts.length = ch.length) →
      (submitChunks gw chunks i).1.length + (submitChunks gw chunks i).2.2
        = (chunks.map List.length).sum
  | [], i, _ => by simp [submitChunks]
  | ch :: rest, i, hwf => by
    have hrest : ∀ k ch', rest[k]? = some ch' →
        ∀ ts, gw (i + 1 + k) = .ok ts → ts.length = ch'.length := by
      intro k ch' hk ts hts
      refine hwf (k + 1) ch' (by simpa using hk) ts ?_
      rw [show i + (k + 1) = i + 1 + k from by omega]
      exact hts
    have ih := submitChunks_len gw rest (i + 1) hrest
    rw [submitChunks]
    cases hgw : gw i with
    | ok ts =>
      have hlen : ts.length = ch.length :=
        hwf 0 ch (by simp) ts (by simpa using hgw)
      simp only [List.map_cons, List.sum_cons, List.length_append]
      omega
    | error e =>
      simp only [List.map_cons, List.sum_cons]
      omega

/-- `gwRespects` in the indexed form used by `submitChunks_len`. -/
theorem gwRespects_rel (gw : Nat → Except String (List ExpoPushTicket))
    (chunks : List (List (ExpoPushMessage α))) (h : gwRespects gw chunks) :
    ∀ k ch, chunks[k]? = some ch → ∀ ts, gw (0 + k) = .ok ts →
      ts.length = ch.length := by
  intro k ch hk ts hts
  rw [Nat.zero_add] at hts
  have hklt : k < chunks.length := by
    by_contra hge
    rw [List.getElem?_eq_none (by omega)] at hk
    exact absurd hk (by simp)
  have hgetd : chunks.getD k [] = ch := by
    rw [List.getD_eq_getElem?_getD, hk]
    rfl
  have h2 := h k hklt
  unfold gwOkLen at h2
  rw [hts, hgetd] at h2
  simp at h2
  exact h2

/-- `updMsg` never changes the row identifier. -/
theorem updMsg_id (now : Nat) (mid : String) (st : MsgStatus)
    (s f : Option Nat) (m : NotificationMessage) :
    (updMsg now mid st s f m).id = m.id := by
  unfold updMsg
  split <;> rfl

/-- `updMsg` fixes every row with a different identifier. -/
theorem updMsg_ne (now : Nat) (mid : String) (st : MsgStatus)
    (s f : Option Nat) (m : NotificationMessage) (h : m.id ≠ mid) :
    updMsg now mid st s f m = m := by
  unfold updMsg
  rw [if_neg (by simpa using h)]

/-- `find?` by identifier commutes with mapping an identifier-preserving
row update over the table. -/
theorem find?_map_idpres (f : NotificationMessage → NotificationMessage)
    (hf : ∀ m, (f m).id = m.id) (mid : String) :
    ∀ l : List NotificationMessage,
      (l.map f).find? (fun m => m.id == mid)
        = (l.find? (fun m => m.id == mid)).map f
  | [] => by simp
  | a :: l => by
    have ih := find?_map_idpres f hf mid l
    simp only [List.map_cons, List.find?_cons, hf a]
    cases hpa : (a.id == mid) with
    | true => simp
    | false => simpa using ih

/-- Message lookup after a status update: the stored row is updated in
place. -/
theorem getMsg_applyEffect_update (now : Nat) (σ : Storage) (mid : String)
    (st : MsgStatus) (s f : Option Nat) (id : String) :
    (applyEffect now σ (.updateStatus mid st s f)).getNotificationMessage id
      = (σ.getNotificationMessage id).map (updMsg now mid st s f) := by
  rw [applyEffect]
  exact find?_map_idpres _ (updMsg_id now mid st s f) id σ.messages

/-- Device-registry effects leave the message table untouched. -/
theorem messages_applyEffect_device (now : Nat) (σ : Storage) (e : Effect)
    (h : e.isDeviceEffect = true) :
    (applyEffect now σ e).messages = σ.messages := by
  cases e with
  | markNotified did => rfl
  | unregister tok => rfl
  | updateStatus mid st s f => exact absurd h (by simp [Effect.isDeviceEffect])

/-- A fold of device-registry effects leaves the message table
untouched. -/
theorem messages_foldl_device (now : Nat) :
    ∀ (effs : List Effect) (σ : Storage),
      (∀ e ∈ effs, e.isDeviceEffect = true) →
      (effs.foldl (applyEffect now) σ).messages = σ.messages
  | [], σ, _ => rfl
  | e :: effs, σ, h => by
    rw [List.foldl_cons,
      messages_foldl_device now effs (applyEffect now σ e)
        (fun x hx => h x (List.mem_cons_of_mem _ hx)),
      messages_applyEffect_device now σ e (h e (List.mem_cons_self _ _))]

/-- Message lookup depends only on the message table. -/
theorem getMsg_congr (σ σ' : Storage) (h : σ.messages = σ'.messages)
    (id : String) :
    σ.getNotificationMessage id = σ'.getNotificationMessage id := by
  rw [Storage.getNotificationMessage, Storage.getNotificationMessage, h]

/-- A found message carries the identifier it was looked up by. -/
theorem getMsg_id (σ : Storage) (id : String) (m : NotificationMessage)
    (h : σ.getNotificationMessage id = some m) : m.id = id := by
  have := List.find?_some h
  simpa using this

/-- All effects emitted by `sendPushNotification` touch only the device
registry. -/
theorem sendPush_effects_device (isTok : String → Bool) (c : Nat)
    (gw : Nat → Except String (List ExpoPushTicket)) (σ : Storage)
    (title body : String) (data : Option α) (tgt : Option (List String))
    (r : SendResult) (effs : List Effect)
    (h : sendPushNotification isTok c gw σ title body data tgt = some (r, effs)) :
    ∀ e ∈ effs, e.isDeviceEffect = true := by
  simp only [sendPushNotification] at h
  split at h
  · simp only [Option.some_inj, Prod.mk.injEq] at h
    rw [← h.2]
    intro e he
    simp at he
  · split at h
    · simp only [Option.some_inj, Prod.mk.injEq] at h
      rw [← h.2]
      intro e he
      simp at he
    · split at h
      · exact absurd h (by simp)
      · next s f2 es2 effs' hp =>
        simp only [Option.some_inj, Prod.mk.injEq] at h
        rw [← h.2]
        exact processTickets_effects _ _ _ _ _ _ _ hp

section

variable {α : Type} (isTok : String → Bool) (c : Nat)
  (gw : Nat → Except String (List ExpoPushTicket))
  (parse : String → Except String α) (now : Nat)

/-- A message that is not `pending` is rejected with the
"Message already ..." result, with no storage change and no effects. -/
theorem sendMsg_already (σ : Storage) (mid : String) (m : NotificationMessage)
    (h : σ.getNotificationMessage mid = some m)
    (hnp : m.status ≠ MsgStatus.pending) :
    sendNotificationMessage isTok c gw parse now σ mid
      = (.ok { successCount := 0, failureCount := 0,
               errors := ["Message already " ++ m.status.toStr] }, σ, []) := by
  simp [sendNotificationMessage, h, hnp]

/-- The storage reached by `sendNotificationMessage` changes the message
table only by an identifier-preserving row update that fixes every row
whose identifier differs from the sent message's. -/
theorem sendMsg_getMsg (σ : Storage) (mid : String) :
    ∃ g : NotificationMessage → NotificationMessage,
      (∀ x, x.id ≠ mid → g x = x) ∧
      ∀ id, ((sendNotificationMessage isTok c gw parse now σ mid).2.1).getNotificationMessage id
        = (σ.getNotificationMessage id).map g := by
  cases hm : σ.getNotificationMessage mid with
  | none =>
    refine ⟨fun x => x, fun x _ => rfl, fun id => ?_⟩
    simp [sendNotificationMessage, hm]
  | some m =>
    by_cases hst : m.status ≠ MsgStatus.pending
    · refine ⟨fun x => x, fun x _ => rfl, fun id => ?_⟩
      simp [sendNotificationMessage, hm, hst]
    · cases hp : parseStoredData parse m.data with
      | error e =>
        refine ⟨updMsg now mid .sending none none,
          fun x hx => updMsg_ne _ _ _ _ _ _ hx, fun id => ?_⟩
        simp only [sendNotificationMessage, hm, hst, if_false, hp]
        exact getMsg_applyEffect_update now σ mid .sending none none id
      | ok d =>
        cases hs : sendPushNotification isTok c gw
            (applyEffect now σ (.updateStatus mid .sending none none))
            m.title m.body d none with
        | none =>
          refine ⟨updMsg now mid .sending none none,
            fun x hx => updMsg_ne _ _ _ _ _ _ hx, fun id => ?_⟩
          simp only [sendNotificationMessage, hm, hst, if_false, hp, hs]
          exact getMsg_applyEffect_update now σ mid .sending none none id
        | some pr =>
          obtain ⟨r, effs⟩ := pr
          refine ⟨fun x => updMsg now mid .sent (some r.successCount)
              (some r.failureCount) (updMsg now mid .sending none none x),
            fun x hx => by
              dsimp only
              rw [updMsg_ne _ _ _ _ _ _ hx, updMsg_ne _ _ _ _ _ _ hx],
            fun id => ?_⟩
          simp only [sendNotificationMessage, hm, hst, if_false, hp, hs]
          rw [getMsg_applyEffect_update,
            getMsg_congr _ (applyEffect now σ (.updateStatus mid .sending none none))
              (messages_foldl_device now effs _
                (sendPush_effects_device _ _ _ _ _ _ _ _ _ _ hs)) id,
            getMsg_applyEffect_update]
          cases σ.getNotificationMessage id <;> rfl

/-- `sendNotificationMessage` never deletes a message row. -/
theorem sendMsg_msgSome (σ : Storage) (mid id : String)
    (h : (σ.getNotificationMessage id).isSome) :
    (((sendNotificationMessage isTok c gw parse now σ mid).2.1).getNotificationMessage id).isSome := by
  obtain ⟨g, -, hg⟩ := sendMsg_getMsg isTok c gw parse now σ mid
  rw [hg id]
  cases hmm : σ.getNotificationMessage id with
  | none => rw [hmm] at h; simp at h
  | some m' => simp

/-- `sendNotificationMessage` does not touch messages other than the one
it was asked to send. -/
theorem sendMsg_getMsg_ne (σ : Storage) (mid id : String) (hne : id ≠ mid) :
    ((sendNotificationMessage isTok c gw parse now σ mid).2.1).getNotificationMessage id
      = σ.getNotificationMessage id := by
  obtain ⟨g, hfix, hg⟩ := sendMsg_getMsg isTok c gw parse now σ mid
  rw [hg id]
  cases hmm : σ.getNotificationMessage id with
  | none => rfl
  | some m' =>
    have hx := hfix m' (by rw [getMsg_id σ id m' hmm]; exact hne)
    simp [hx]

/-- A message already in status `failed` stays `failed` through the rest
of the scheduler loop. -/
theorem processLoop_failed_sticky :
    ∀ (l : List NotificationMessage) (σ : Storage) (id : String)
      (m' : NotificationMessage),
      σ.getNotificationMessage id = some m' → m'.status = .failed →
      ∃ m'', ((processLoop isTok c gw parse now σ l).1).getNotificationMessage id
          = some m'' ∧ m''.status = .failed
  | [], σ, id, m', h, hf => ⟨m', h, hf⟩
  | x :: rest, σ, id, m', h, hf => by
    have hstep : ∃ m₂, ((sendNotificationMessage isTok c gw parse now σ x.id).2.1).getNotificationMessage id
        = some m₂ ∧ m₂.status = .failed := by
      by_cases hxid : id = x.id
      · have h' : σ.getNotificationMessage x.id = some m' := by
          rw [← hxid]
          exact h
        rw [sendMsg_already isTok c gw parse now σ x.id m' h' (by rw [hf]; simp)]
        exact ⟨m', h, hf⟩
      · rw [sendMsg_getMsg_ne isTok c gw parse now σ x.id id hxid]
        exact ⟨m', h, hf⟩
    obtain ⟨m₂, hm₂, hf₂⟩ := hstep
    simp only [processLoop]
    cases hr : (sendNotificationMessage isTok c gw parse now σ x.id).1 with
    | ok r =>
      exact processLoop_failed_sticky rest _ id m₂ hm₂ hf₂
    | threw e =>
      refine processLoop_failed_sticky rest _ id
        (updMsg now x.id .failed none none m₂) ?_ ?_
      · rw [getMsg_applyEffect_update, hm₂]
        rfl
      · unfold updMsg
        split
        · exact rfl
        · exact hf₂

/-- The scheduler loop attempts every message of its batch (one outcome
per message, in order), and every message whose attempt threw ends the
batch in status `failed`. -/
theorem processLoop_spec :
    ∀ (l : List NotificationMessage) (σ : Storage),
      (∀ x ∈ l, (σ.getNotificationMessage x.id).isSome) →
      ((processLoop isTok c gw parse now σ l).2.length = l.length ∧
       ∀ (k : Nat) (x : NotificationMessage) (e : String), l[k]? = some x →
         (processLoop isTok c gw parse now σ l).2[k]? = some (.threw e) →
         ∃ m', ((processLoop isTok c gw parse now σ l).1).getNotificationMessage x.id
             = some m' ∧ m'.status = .failed)
  | [], σ, _ => by
    constructor
    · rfl
    · intro k x e hk
      simp at hk
  | x0 :: rest, σ, hpres => by
    have hpres' : ∀ y ∈ rest,
        (((sendNotificationMessage isTok c gw parse now σ x0.id).2.1).getNotificationMessage y.id).isSome :=
      fun y hy => sendMsg_msgSome isTok c gw parse now σ x0.id y.id
        (hpres y (List.mem_cons_of_mem _ hy))
    simp only [processLoop]
    cases hr : (sendNotificationMessage isTok c gw parse now σ x0.id).1 with
    | ok r =>
      have ih := processLoop_spec rest
        ((sendNotificationMessage isTok c gw parse now σ x0.id).2.1) hpres'
      constructor
      · simp [ih.1]
      · intro k x e hk hout
        cases k with
        | zero => simp at hout
        | succ k' =>
          rw [List.getElem?_cons_succ] at hk
          rw [List.getElem?_cons_succ] at hout
          exact ih.2 k' x e hk hout
    | threw e0 =>
      have hpresf : ∀ y ∈ rest,
          ((applyEffect now ((sendNotificationMessage isTok c gw parse now σ x0.id).2.1)
            (.updateStatus x0.id .failed none none)).getNotificationMessage y.id).isSome := by
        intro y hy
        rw [getMsg_applyEffect_update]
        have hsome := hpres' y hy
        cases hmm : ((sendNotificationMessage isTok c gw parse now σ x0.id).2.1).getNotificationMessage y.id with
        | none => rw [hmm] at hsome; simp at hsome
        | some z => simp
      have ih := processLoop_spec rest _ hpresf
      constructor
      · simp [ih.1]
      · intro k x e hk hout
        cases k with
        | zero =>
          rw [List.getElem?_cons_zero, Option.some_inj] at hk
          subst hk
          have h1 : (((sendNotificationMessage isTok c gw parse now σ x0.id).2.1).getNotificationMessage x0.id).isSome :=
            sendMsg_msgSome isTok c gw parse now σ x0.id x0.id
              (hpres x0 (List.mem_cons_self _ _))
          obtain ⟨y, hy⟩ := Option.isSome_iff_exists.mp h1
          have h2 : (applyEffect now ((sendNotificationMessage isTok c gw parse now σ x0.id).2.1)
              (.updateStatus x0.id .failed none none)).getNotificationMessage x0.id
              = some (updMsg now x0.id .failed none none y) := by
            rw [getMsg_applyEffect_update, hy]
            rfl
          have h3 : (updMsg now x0.id .failed none none y).status = .failed := by
            unfold updMsg
            rw [if_pos (by rw [getMsg_id _ _ _ hy]; simp)]
          exact processLoop_failed_sticky isTok c gw parse now rest _ x0.id _ h2 h3
        | succ k' =>
          rw [List.getElem?_cons_succ] at hk
          rw [List.getElem?_cons_succ] at hout
          exact ih.2 k' x e hk hout

end

/-- Under the one-ticket-per-message gateway contract, the ticket loop
runs without a TypeError and its counters together with the chunk-level
failures account for every valid device. -/
theorem pipeline_counts {α : Type} (c : Nat)
    (gw : Nat → Except String (List ExpoPushTicket))
    (vd : List DeviceRegistration) (msgs : List (ExpoPushMessage α))
    (hm : msgs.length = vd.length)
    (hwf : gwRespects gw (chunkPushNotifications c msgs)) :
    ∃ s f2 es2 effs,
      processTickets vd (submitChunks gw (chunkPushNotifications c msgs) 0).1 0
        = some (s, f2, es2, effs) ∧
      s + ((submitChunks gw (chunkPushNotifications c msgs) 0).2.2 + f2) = vd.length := by
  have hlt := submitChunks_len gw (chunkPushNotifications c msgs) 0
    (gwRespects_rel gw (chunkPushNotifications c msgs) hwf)
  have hsum : ((chunkPushNotifications c msgs).map List.length).sum = msgs.length := by
    rw [← List.length_flatten, chunkPushNotifications_flatten]
  have hle : 0 + (submitChunks gw (chunkPushNotifications c msgs) 0).1.length
      ≤ vd.length := by omega
  obtain ⟨o, ho⟩ := Option.isSome_iff_exists.mp (processTickets_isSome vd _ 0 hle)
  obtain ⟨s, f2, es2, effs⟩ := o
  have hc := processTickets_counts vd _ 0 s f2 es2 effs ho
  exact ⟨s, f2, es2, effs, ho, by omega⟩

/-! Claims. -/

/-- C1: the claim says each ok ticket's `markNotified` goes to the
endpoint at the ticket's position in its own submitted chunk, even when
an earlier chunk's submission throws.  The code violates this: with
chunk capacity 1, devices `devA` (token `t1`) and `devB` (token `t2`)
are split into the chunks `[["t1"], ["t2"]]`; the gateway throws on the
first chunk and returns the single ok ticket for the second chunk (whose
endpoint is `devB`), yet the run calls `markNotified` on `devA` — the
endpoint of the failed chunk — because tickets are indexed into the full
`validDevices` list while thrown chunks produce no tickets. -/
theorem C1_ok_ticket_matched_to_failed_chunk_device :
    ((chunkPushNotifications 0 ([devA, devB].map (fun d =>
        ({ «to» := d.expoPushToken, sound := "default", title := "Hi",
           body := "Test", data := (none : Option String) }
          : ExpoPushMessage String)))).map
        (fun ch => ch.map (fun pm => pm.«to»))) = [["t1"], ["t2"]] ∧
    gwThrowFirst 0 = .error "boom" ∧
    gwThrowFirst 1 = .ok [{ status := .ok }] ∧
    sendPushNotification (α := String) (fun _ => true) 0 gwThrowFirst σAB
        "Hi" "Test" none none
      = some ({ successCount := 1, failureCount := 1, errors := ["boom"] },
              [Effect.markNotified devA.id]) ∧
    devA.expoPushToken = "t1" ∧ devB.expoPushToken = "t2" ∧
    devA.id ≠ devB.id := by
  refine ⟨rfl, rfl, rfl, rfl, rfl, rfl, by decide⟩

/-- C2 counterexample: with the same user id requested twice, the
resolved candidate collection contains `devA` twice — the claim's
"each endpoint at most once, for every input list including lists in
which the same user id appears more than once" is false on the code,
which flattens the per-user lists without deduplication. -/
theorem C2_counterexample_duplicate_user_id :
    (resolveDevices σA (some ["u", "u"])).count devA = 2 ∧
    ¬(resolveDevices σA (some ["u", "u"])).Nodup := by
  refine ⟨by decide, by decide⟩

/-- C2 amended: when the requested user ids are pairwise distinct and the
device table holds no duplicate rows, the resolved candidate collection
contains each endpoint at most once; a repeated user id contributes its
endpoints once per occurrence. -/
theorem C2_amended_nodup_of_distinct_ids (σ : Storage) (ids : List String)
    (h1 : ids.Nodup) (h2 : σ.devices.Nodup) :
    (resolveDevices σ (some ids)).Nodup := by
  simp only [resolveDevices]
  by_cases hlen : ids.length > 0
  · rw [if_pos hlen, List.nodup_flatten]
    constructor
    · intro l hl
      obtain ⟨uid, -, rfl⟩ := List.mem_map.mp hl
      exact List.Nodup.filter _ h2
    · refine List.Pairwise.map _ ?_ h1
      intro a b hab x hxa hxb
      simp only [Storage.getDevicesForUser] at hxa hxb
      have ha := List.of_mem_filter hxa
      have hb := List.of_mem_filter hxb
      simp at ha hb
      exact hab (by rw [← ha.1, hb.1])
  · rw [if_neg hlen]
    exact List.Nodup.filter _ h2

/-- C2 amended witness at distinct user ids over a one-device table. -/
theorem C2_amended_witness : (resolveDevices σA (some ["u", "v"])).Nodup :=
  C2_amended_nodup_of_distinct_ids σA ["u", "v"] (by decide) (by decide)

/-- C3 counterexample: a non-ok ticket without `details.error` (a shape
the gateway can return) increments the failure count but appends no
error string — the claim's unconditional "an error string ... is
appended" is false on the code, which guards the append with
`ticket.details?.error`. -/
theorem C3_counterexample_no_details :
    sendPushNotification (α := String) (fun _ => true) 0 gwErrNoDetails σA
        "Hi" "Test" none none
      = some ({ successCount := 0, failureCount := 1, errors := [] }, []) := by
  decide

/-- C3 amended: every non-ok ticket increments the failure count, and
whenever the ticket carries an error reason in `details.error`, the
`"<token>: <reason>"` string for the endpoint at the ticket's index is
recorded and, when the reason is `DeviceNotRegistered`, that endpoint's
token is unregistered within the same run. -/
theorem C3_amended_nonok_accounting (vd : List DeviceRegistration)
    (ts : List ExpoPushTicket) (i : Nat) (s f : Nat) (es : List String)
    (effs : List Effect)
    (h : processTickets vd ts i = some (s, f, es, effs)) :
    f = (ts.filter (fun t => !(t.status == TicketStatus.ok))).length ∧
    ∀ (j : Nat) (t : ExpoPushTicket) (err : String) (d : DeviceRegistration),
      ts[j]? = some t → t.status ≠ TicketStatus.ok →
      t.details.bind TicketDetails.error = some err →
      vd[i + j]? = some d →
      (d.expoPushToken ++ ": " ++ err) ∈ es ∧
      (err = "DeviceNotRegistered" → Effect.unregister d.expoPushToken ∈ effs) :=
  ⟨processTickets_failCount vd ts i s f es effs h,
   fun j t err d hj hok herr hd =>
     processTickets_err_mem vd ts i s f es effs h j t err d hj hok herr hd⟩

/-- C3 amended witness: one `DeviceNotRegistered` ticket against one
device. -/
theorem C3_amended_witness :
    1 = (([tDNR] : List ExpoPushTicket).filter
          (fun t => !(t.status == TicketStatus.ok))).length ∧
    (devA.expoPushToken ++ ": " ++ "DeviceNotRegistered")
        ∈ ["t1: DeviceNotRegistered"] ∧
    Effect.unregister devA.expoPushToken ∈ [Effect.unregister "t1"] := by
  have h := C3_amended_nonok_accounting [devA] [tDNR] 0 0 1
    ["t1: DeviceNotRegistered"] [Effect.unregister "t1"] (by decide)
  have h2 := h.2 0 tDNR "DeviceNotRegistered" devA (by decide) (by decide)
    (by decide) (by decide)
  exact ⟨h.1, h2.1, h2.2 rfl⟩

/-- C4: a message whose status is not `pending` is rejected with the
zero result and the single error "Message already <status>", with the
storage returned unchanged and no effects performed. -/
theorem C4_already_status_rejected {α : Type} (isTok : String → Bool)
    (c : Nat) (gw : Nat → Except String (List ExpoPushTicket))
    (parse : String → Except String α) (now : Nat) (σ : Storage)
    (mid : String) (m : NotificationMessage)
    (h : σ.getNotificationMessage mid = some m)
    (hnp : m.status ≠ MsgStatus.pending) :
    sendNotificationMessage isTok c gw parse now σ mid
      = (.ok { successCount := 0, failureCount := 0,
               errors := ["Message already " ++ m.status.toStr] }, σ, []) :=
  sendMsg_already isTok c gw parse now σ mid m h hnp

/-- C4 witness: an already-`sent` message. -/
theorem C4_witness :
    sendNotificationMessage (α := String) (fun _ => true) 0 gwAllOk parseFail 5
        σ4 "m3"
      = (.ok { successCount := 0, failureCount := 0,
               errors := ["Message already sent"] }, σ4, []) :=
  C4_already_status_rejected (fun _ => true) 0 gwAllOk parseFail 5 σ4 "m3"
    msgSent (by decide) (by decide)

/-- C5: whenever a pending message's payload parses and the inner send
returns normally, the message ends the call in status `sent` with the
result's success and failure counts written — also when the failure
count is positive. -/
theorem C5_status_sent_on_normal_return {α : Type} (isTok : String → Bool)
    (c : Nat) (gw : Nat → Except String (List ExpoPushTicket))
    (parse : String → Except String α) (now : Nat) (σ : Storage)
    (mid : String) (m : NotificationMessage) (d : Option α) (r : SendResult)
    (effs : List Effect)
    (h : σ.getNotificationMessage mid = some m)
    (hp : m.status = MsgStatus.pending)
    (hd : parseStoredData parse m.data = .ok d)
    (hs : sendPushNotification isTok c gw
        (applyEffect now σ (.updateStatus mid .sending none none))
        m.title m.body d none = some (r, effs)) :
    (sendNotificationMessage isTok c gw parse now σ mid).1 = .ok r ∧
    ∃ m', ((sendNotificationMessage isTok c gw parse now σ mid).2.1).getNotificationMessage mid
        = some m' ∧ m'.status = .sent ∧ m'.successCount = some r.successCount ∧
        m'.failureCount = some r.failureCount := by
  have hnp : ¬(m.status ≠ MsgStatus.pending) := by rw [hp]; simp
  have hid : m.id = mid := getMsg_id σ mid m h
  constructor
  · simp only [sendNotificationMessage, h, hnp, if_false, hd, hs]
  · simp only [sendNotificationMessage, h, hnp, if_false, hd, hs]
    rw [getMsg_applyEffect_update,
      getMsg_congr _ (applyEffect now σ (.updateStatus mid .sending none none))
        (messages_foldl_device now effs _
          (sendPush_effects_device _ _ _ _ _ _ _ _ _ _ hs)) mid,
      getMsg_applyEffect_update, h]
    refine ⟨_, rfl, ?_, ?_, ?_⟩ <;> simp [updMsg, hid]

/-- C5 witness: one device, a `DeviceNotRegistered` gateway reply —
partial failure (failureCount 1) still ends in status `sent`. -/
theorem C5_witness :
    ((sendNotificationMessage (α := String) (fun _ => true) 0 gwDNR parseFail 5
        σ5 "m1").1
      = .ok { successCount := 0, failureCount := 1,
              errors := ["t1: DeviceNotRegistered"] }) ∧
    ∃ m', ((sendNotificationMessage (α := String) (fun _ => true) 0 gwDNR
        parseFail 5 σ5 "m1").2.1).getNotificationMessage "m1"
        = some m' ∧ m'.status = .sent ∧ m'.successCount = some 0 ∧
        m'.failureCount = some 1 :=
  C5_status_sent_on_normal_return (fun _ => true) 0 gwDNR parseFail 5 σ5 "m1"
    msgPend none
    { successCount := 0, failureCount := 1, errors := ["t1: DeviceNotRegistered"] }
    [Effect.unregister "t1"] (by decide) (by decide) rfl (by decide)

/-- C6: characterization of the chunk loop — a thrown chunk contributes
exactly its length to the failure count and its error string to the
error list, and every other chunk is still submitted: the tickets are
the concatenated responses of all non-throwing chunks, in order. -/
theorem C6_chunk_throw_accounting {α : Type}
    (gw : Nat → Except String (List ExpoPushTicket))
    (chunks : List (List (ExpoPushMessage α))) (i : Nat) :
    submitChunks gw chunks i =
      (((List.range chunks.length).map (fun k =>
          match gw (i + k) with | .ok ts => ts | .error _ => [])).flatten,
       ((List.range chunks.length).map (fun k =>
          match gw (i + k) with | .error e => [e] | .ok _ => [])).flatten,
       ((List.range chunks.length).map (fun k =>
          match gw (i + k) with
          | .error _ => (chunks.getD k []).length
          | .ok _ => 0)).sum) :=
  submitChunks_spec gw chunks i

/-- C7: the scheduler attempts every due message (one outcome per due
message, in order), and a message whose attempt raised ends the batch
marked `failed`; the other messages of the batch are still attempted. -/
theorem C7_scheduler_isolation {α : Type} (isTok : String → Bool) (c : Nat)
    (gw : Nat → Except String (List ExpoPushTicket))
    (parse : String → Except String α) (now : Nat) (σ : Storage) :
    ((processPendingNotifications isTok c gw parse now σ).2.length
      = (σ.getPendingNotifications now).length) ∧
    ∀ (k : Nat) (x : NotificationMessage) (e : String),
      (σ.getPendingNotifications now)[k]? = some x →
      (processPendingNotifications isTok c gw parse now σ).2[k]? = some (.threw e) →
      ∃ m', ((processPendingNotifications isTok c gw parse now σ).1).getNotificationMessage x.id
          = some m' ∧ m'.status = .failed := by
  have hpres : ∀ x ∈ σ.getPendingNotifications now,
      (σ.getNotificationMessage x.id).isSome := by
    intro x hx
    have hxmem : x ∈ σ.messages := List.mem_of_mem_filter hx
    rw [Storage.getNotificationMessage, List.find?_isSome]
    exact ⟨x, hxmem, by simp⟩
  exact processLoop_spec isTok c gw parse now (σ.getPendingNotifications now) σ hpres

/-- C7 witness: three due messages, the middle one with an unparseable
payload; it ends `failed` while the batch of three produces three
outcomes. -/
theorem C7_witness :
    ∃ m', ((processPendingNotifications (α := String) (fun _ => true) 0 gwAllOk
        parseFail 5 σ7).1).getNotificationMessage "m2" = some m' ∧
      m'.status = .failed :=
  (C7_scheduler_isolation (fun _ => true) 0 gwAllOk parseFail 5 σ7).2
    1 msgBad "SyntaxError" (by decide) (by decide)

/-- C8: an empty resolved audience returns the zero result with the
"No registered devices found" error, without an exception (the call
returns a value) and with no effects and the storage unchanged. -/
theorem C8_empty_audience {α : Type} (isTok : String → Bool) (c : Nat)
    (gw : Nat → Except String (List ExpoPushTicket)) (σ : Storage)
    (title body : String) (data : Option α) (tgt : Option (List String))
    (h : resolveDevices σ tgt = []) :
    sendPushNotification isTok c gw σ title body data tgt
      = some ({ successCount := 0, failureCount := 0,
                errors := ["No registered devices found"] }, []) := by
  simp only [sendPushNotification]
  rw [if_pos (by rw [h]; rfl)]

/-- C8 witness: a user whose only device is disabled. -/
theorem C8_witness :
    resolveDevices σ8 (some ["u"]) = [] ∧
    sendPushNotification (α := String) (fun _ => true) 0 gwAllOk σ8
        "Hi" "Test" none (some ["u"])
      = some ({ successCount := 0, failureCount := 0,
                errors := ["No registered devices found"] }, []) :=
  ⟨by decide, C8_empty_audience (fun _ => true) 0 gwAllOk σ8 "Hi" "Test" none
    (some ["u"]) (by decide)⟩

/-- C9: for a non-empty audience with at least one gateway-valid token,
under the gateway's one-ticket-per-message contract, the returned
success and failure counts partition exactly the valid submitted
endpoints — invalid dropped endpoints are counted in neither —
regardless of which chunks throw and which tickets are ok. -/
theorem C9_counter_partition {α : Type} (isTok : String → Bool) (c : Nat)
    (gw : Nat → Except String (List ExpoPushTicket)) (σ : Storage)
    (title body : String) (data : Option α) (tgt : Option (List String))
    (h1 : resolveDevices σ tgt ≠ [])
    (h2 : (resolveDevices σ tgt).filter (fun d => isTok d.expoPushToken) ≠ [])
    (hwf : gwRespects gw (chunkPushNotifications c
      (((resolveDevices σ tgt).filter (fun d => isTok d.expoPushToken)).map
        (fun d =>
          ({ «to» := d.expoPushToken, sound := "default", title := title,
             body := body, data := data } : ExpoPushMessage α))))) :
    ∃ r effs, sendPushNotification isTok c gw σ title body data tgt
        = some (r, effs) ∧
      r.successCount + r.failureCount
        = ((resolveDevices σ tgt).filter (fun d => isTok d.expoPushToken)).length := by
  obtain ⟨s, f2, es2, effs, ho, hcount⟩ := pipeline_counts c gw
    ((resolveDevices σ tgt).filter (fun d => isTok d.expoPushToken))
    (((resolveDevices σ tgt).filter (fun d => isTok d.expoPushToken)).map
      (fun d =>
        ({ «to» := d.expoPushToken, sound := "default", title := title,
           body := body, data := data } : ExpoPushMessage α)))
    (List.length_map _ _) hwf
  have hc1 : ¬((resolveDevices σ tgt).length = 0) := by
    intro hz
    exact h1 (List.eq_nil_of_length_eq_zero hz)
  have hc2 : ¬((((resolveDevices σ tgt).filter
      (fun d => isTok d.expoPushToken)).map
        (fun d =>
          ({ «to» := d.expoPushToken, sound := "default", title := title,
             body := body, data := data } : ExpoPushMessage α))).length = 0) := by
    rw [List.length_map]
    intro hz
    exact h2 (List.eq_nil_of_length_eq_zero hz)
  have heq : sendPushNotification isTok c gw σ title body data tgt
      = some ({ successCount := s,
                failureCount := (submitChunks gw (chunkPushNotifications c
                  (((resolveDevices σ tgt).filter (fun d => isTok d.expoPushToken)).map
                    (fun d =>
                      ({ «to» := d.expoPushToken, sound := "default", title := title,
                         body := body, data := data } : ExpoPushMessage α)))) 0).2.2 + f2,
                errors := (submitChunks gw (chunkPushNotifications c
                  (((resolveDevices σ tgt).filter (fun d => isTok d.expoPushToken)).map
                    (fun d =>
                      ({ «to» := d.expoPushToken, sound := "default", title := title,
                         body := body, data := data } : ExpoPushMessage α)))) 0).2.1 ++ es2 },
              effs) := by
    simp only [sendPushNotification]
    rw [if_neg hc1, if_neg hc2, ho]
  exact ⟨_, effs, heq, by simpa using hcount⟩

/-- C9 witness: one valid and one invalid device, a single ok chunk —
counts sum to the one valid endpoint. -/
theorem C9_witness :
    ∃ r effs, sendPushNotification (α := String) (fun t => t == "t1") 0 gwAllOk
        σ9 "Hi" "Test" none none = some (r, effs) ∧
      r.successCount + r.failureCount
        = ((resolveDevices σ9 none).filter
            (fun d => (fun t => t == "t1") d.expoPushToken)).length :=
  C9_counter_partition (fun t => t == "t1") 0 gwAllOk σ9 "Hi" "Test" none none
    (by decide) (by decide) (by unfold gwRespects; decide)

/-- C10: a pending message with a present but unparseable payload is
first moved to `sending`, then the parse exception propagates with no
further status update: the call ends with the message in status
`sending`. -/
theorem C10_parse_failure_leaves_sending {α : Type} (isTok : String → Bool)
    (c : Nat) (gw : Nat → Except String (List ExpoPushTicket))
    (parse : String → Except String α) (now : Nat) (σ : Storage)
    (mid : String) (m : NotificationMessage) (s e : String)
    (h : σ.getNotificationMessage mid = some m)
    (hp : m.status = MsgStatus.pending)
    (hsd : m.data = some s) (hne : s ≠ "") (hpe : parse s = .error e) :
    sendNotificationMessage isTok c gw parse now σ mid
      = (.threw e, applyEffect now σ (.updateStatus mid .sending none none),
         [Effect.updateStatus mid .sending none none]) ∧
    ∃ m', (applyEffect now σ (.updateStatus mid .sending none none)).getNotificationMessage mid
        = some m' ∧ m'.status = .sending := by
  have hnp : ¬(m.status ≠ MsgStatus.pending) := by rw [hp]; simp
  have hid : m.id = mid := getMsg_id σ mid m h
  have hparse : parseStoredData parse m.data = .error e := by
    rw [hsd]
    simp [parseStoredData, hne, hpe, Except.map]
  constructor
  · simp [sendNotificationMessage, h, hnp, hparse]
  · rw [getMsg_applyEffect_update, h]
    exact ⟨_, rfl, by simp [updMsg, hid]⟩

/-- C10 witness: device `devA`, pending message `m2` with malformed
payload `"x"`. -/
theorem C10_witness :
    sendNotificationMessage (α := String) (fun _ => true) 0 gwAllOk parseFail 5
        σ10 "m2"
      = (.threw "SyntaxError",
         applyEffect 5 σ10 (.updateStatus "m2" .sending none none),
         [Effect.updateStatus "m2" .sending none none]) ∧
    ∃ m', (applyEffect 5 σ10 (.updateStatus "m2" .sending none none)).getNotificationMessage "m2"
        = some m' ∧ m'.status = .sending :=
  C10_parse_failure_leaves_sending (fun _ => true) 0 gwAllOk parseFail 5 σ10
    "m2" msgBad "x" "SyntaxError" (by decide) (by decide) (by decide)
    (by decide) rfl

end CarbScan
